import Mathlib

/-!
Verification of the conversational control flow of this repository.

Two source files carry the logic under scrutiny:
- `langgraph_agent.py`: a three-node state graph (decide / search / respond)
  over a conversation state of role-tagged messages;
- `lanchain_agent_aws_memory.py`: a memory middleware (pre-model hook) and the
  Bedrock invocation entrypoint `agent_invocation`.

External collaborators (the language-model adapter, the search-tool adapter and
the memory store) are modelled as explicit function parameters; a fallible
adapter returns `Except String _`, an exception being the `error` case.
Console printing has no effect on state and is elided, except where an error
string is recorded because an exception handler formats it into output.
-/

namespace LangGraphAgent

/-- A conversation message as the dict `{"role": ..., "content": ...}` used in
`langgraph_agent.py`; LangChain's `SystemMessage` / `HumanMessage` /
`AIMessage` prompt objects are rendered with roles "system" / "user" /
"assistant". -/
structure Message where
  role : String
  content : String
deriving DecidableEq, Repr

/-- One result dict returned by the search tool; the code reads only
`res["content"]`. -/
structure SearchResult where
  content : String
deriving DecidableEq, Repr

/-- The graph state `AgentState`: `messages` accumulates via `operator.add`
(list concatenation), `needs_search` is overwritten by node updates. -/
structure AgentState where
  messages : List Message
  needs_search : Bool
deriving DecidableEq, Repr

/-- `pat` occurs as a contiguous substring of `hay` (Python `pat in hay`). -/
def hasSubstrList (hay pat : List Char) : Bool :=
  match hay with
  | [] => pat.isEmpty
  | _ :: t => pat.isPrefixOf hay || hasSubstrList t pat

/-- Python `pat in hay` on strings. -/
def containsSubstr (hay pat : String) : Bool :=
  hasSubstrList hay.toList pat.toList

/-- Python `s.lower()` (ASCII as far as this code exercises it), as the
character-wise lowercasing of the string's character list. -/
def lowerStr (s : String) : String :=
  String.mk (s.toList.map Char.toLower)

/-- The fixed system instruction of `should_search_node`. -/
def decideSystemPrompt : String :=
  "Determine if this query requires current/real-time information or factual verification that might change over time. Respond ONLY with \x27yes\x27 or \x27no\x27."

/-- The two-message classification prompt `should_search_node` sends to the
model adapter, built from the latest message. -/
def decidePromptFor (m : Message) : List Message :=
  [Message.mk "system" decideSystemPrompt, Message.mk "user" ("Query: " ++ m.content)]

/-- `should_search_node`: reads `state["messages"][-1]` (an `IndexError` on an
empty history is the `error` case), asks the model adapter `llm` for a yes/no
classification and sets `needs_search` to whether the lowercased response
contains "yes". The returned partial update `{"needs_search": ...}` leaves
`messages` unchanged after the merge. -/
def should_search_node (llm : List Message → String) (s : AgentState) :
    Except String AgentState :=
  match s.messages.getLast? with
  | none => Except.error "IndexError: list index out of range"
  | some last =>
    Except.ok { s with
      needs_search := containsSubstr (lowerStr (llm (decidePromptFor last))) "yes" }

/-- `"\n".join(f"Result \x7bi+1\x7d: \x7bres["content"]\x7d" ...)`: 1-indexed
lines joined by newlines. -/
def formatResults (results : List SearchResult) : String :=
  String.intercalate "\n"
    (results.enum.map (fun p => "Result " ++ toString (p.1 + 1) ++ ": " ++ p.2.content))

/-- The assistant message content `search_node` appends for query `q` and
results `rs`. -/
def searchMessageContent (q : String) (rs : List SearchResult) : String :=
  "Search results for \x27" ++ q ++ "\x27:\n" ++ formatResults rs

/-- `search_node`: takes the latest message content as the query, invokes the
search adapter `tool` (its exception propagates as `error`, with no message
appended) and on success appends exactly one assistant message holding the
formatted results. -/
def search_node (tool : String → Except String (List SearchResult))
    (s : AgentState) : Except String AgentState :=
  match s.messages.getLast? with
  | none => Except.error "IndexError: list index out of range"
  | some last =>
    match tool last.content with
    | Except.error e => Except.error e
    | Except.ok results =>
      Except.ok { s with
        messages := s.messages ++ [Message.mk "assistant" (searchMessageContent last.content results)] }

/-- The fixed system instruction of `respond_node`. -/
def respondSystemPrompt : String :=
  "You are a helpful assistant. Answer the user\x27s question based on the provided information."

/-- The forward scan in `respond_node`: each user-role message overwrites
`user_query`, each assistant-role message containing "Search results"
overwrites `search_results`; the fold yields the pair after the whole
history. -/
def scanHistory (msgs : List Message) : Option String × Option String :=
  msgs.foldl
    (fun acc msg =>
      if msg.role = "user" then (some msg.content, acc.2)
      else if msg.role = "assistant" ∧ containsSubstr msg.content "Search results" = true then
        (acc.1, some msg.content)
      else acc)
    (none, none)

/-- The prompt `respond_node` assembles: system instruction, the scanned
search-results message when present, then a final user message whose content
is `user_query or state["messages"][-1]["content"]` (Python `or`: the fallback
fires when `user_query` is `None` or the empty string, and indexing an empty
history raises). -/
def respondPrompt (msgs : List Message) : Except String (List Message) :=
  let scanned := scanHistory msgs
  let base := Message.mk "system" respondSystemPrompt ::
    (match scanned.2 with
     | some c => [Message.mk "assistant" c]
     | none => [])
  match scanned.1 with
  | some q =>
    if q = "" then
      match msgs.getLast? with
      | some m => Except.ok (base ++ [Message.mk "user" m.content])
      | none => Except.error "IndexError: list index out of range"
    else Except.ok (base ++ [Message.mk "user" q])
  | none =>
    match msgs.getLast? with
    | some m => Except.ok (base ++ [Message.mk "user" m.content])
    | none => Except.error "IndexError: list index out of range"

/-- `respond_node`: assembles the prompt, invokes the model adapter once and
appends its text as one assistant message. -/
def respond_node (llm : List Message → String) (s : AgentState) :
    Except String AgentState :=
  match respondPrompt s.messages with
  | Except.error e => Except.error e
  | Except.ok prompt =>
    Except.ok { s with messages := s.messages ++ [Message.mk "assistant" (llm prompt)] }

/-- `route_after_decision`: conditional edge out of `decide`. -/
def route_after_decision (s : AgentState) : String :=
  if s.needs_search then "search" else "respond"

/-- Dispatch of the three registered nodes by name. -/
def nodeFn (decideLLM respondLLM : List Message → String)
    (tool : String → Except String (List SearchResult))
    (name : String) (s : AgentState) : Except String AgentState :=
  if name = "decide" then should_search_node decideLLM s
  else if name = "search" then search_node tool s
  else if name = "respond" then respond_node respondLLM s
  else Except.error "unknown node"

/-- The edge relation of the compiled graph: `decide` routes via
`route_after_decision`, `search → respond`, `respond → END` (`none`). -/
def nextNode (name : String) (s : AgentState) : Option String :=
  if name = "decide" then some (route_after_decision s)
  else if name = "search" then some "respond"
  else if name = "respond" then none
  else none

/-- Fuel-bounded execution of the graph from a node, returning the sequence of
executed node names and the final state; the graph is acyclic so any fuel of
at least 3 suffices from the entry point. -/
def runFrom (decideLLM respondLLM : List Message → String)
    (tool : String → Except String (List SearchResult)) :
    Nat → String → AgentState → Except String (List String × AgentState)
  | 0, _, _ => Except.error "recursion limit reached"
  | Nat.succ fuel, name, s =>
    match nodeFn decideLLM respondLLM tool name s with
    | Except.error e => Except.error e
    | Except.ok s2 =>
      match nextNode name s2 with
      | none => Except.ok ([name], s2)
      | some nxt =>
        match runFrom decideLLM respondLLM tool fuel nxt s2 with
        | Except.error e => Except.error e
        | Except.ok (tr, sf) => Except.ok (name :: tr, sf)

/-- One invocation of the compiled graph: entry point `decide`. -/
def runGraph (decideLLM respondLLM : List Message → String)
    (tool : String → Except String (List SearchResult))
    (s : AgentState) : Except String (List String × AgentState) :=
  runFrom decideLLM respondLLM tool 4 "decide" s

end LangGraphAgent

namespace LangGraphAgent

/-- Unfolding of one fuel step of the graph execution. -/
theorem runFrom_succ (dl rl : List Message → String)
    (tool : String → Except String (List SearchResult))
    (fuel : Nat) (name : String) (s : AgentState) :
    runFrom dl rl tool (fuel + 1) name s =
      match nodeFn dl rl tool name s with
      | Except.error e => Except.error e
      | Except.ok s2 =>
        match nextNode name s2 with
        | none => Except.ok ([name], s2)
        | some nxt =>
          match runFrom dl rl tool fuel nxt s2 with
          | Except.error e => Except.error e
          | Except.ok (tr, sf) => Except.ok (name :: tr, sf) := rfl

/-- Complete case analysis of one graph invocation: the run is the
decide-search-respond or decide-respond chain, whichever `needs_search`
selects after `decide`, with adapter errors short-circuiting. -/
theorem runGraph_cases (dl rl : List Message → String)
    (tool : String → Except String (List SearchResult)) (s0 : AgentState) :
    runGraph dl rl tool s0 =
      match should_search_node dl s0 with
      | Except.error e => Except.error e
      | Except.ok s1 =>
        if s1.needs_search then
          match search_node tool s1 with
          | Except.error e => Except.error e
          | Except.ok s2 =>
            match respond_node rl s2 with
            | Except.error e => Except.error e
            | Except.ok s3 => Except.ok (["decide", "search", "respond"], s3)
        else
          match respond_node rl s1 with
          | Except.error e => Except.error e
          | Except.ok s2 => Except.ok (["decide", "respond"], s2) := by
  unfold runGraph
  rw [show (4 : Nat) = 3 + 1 from rfl, runFrom_succ]
  rw [show nodeFn dl rl tool "decide" s0 = should_search_node dl s0 from rfl]
  cases hd : should_search_node dl s0 with
  | error e => rfl
  | ok s1 =>
    dsimp only
    rw [show nextNode "decide" s1 = some (route_after_decision s1) from rfl]
    by_cases hs : s1.needs_search = true
    · rw [show route_after_decision s1 = "search" from by
        simp [route_after_decision, hs], if_pos hs]
      dsimp only
      rw [show (3 : Nat) = 2 + 1 from rfl, runFrom_succ]
      rw [show nodeFn dl rl tool "search" s1 = search_node tool s1 from rfl]
      cases he : search_node tool s1 with
      | error e => rfl
      | ok s2 =>
        dsimp only
        rw [show nextNode "search" s2 = some "respond" from rfl]
        dsimp only
        rw [show (2 : Nat) = 1 + 1 from rfl, runFrom_succ]
        rw [show nodeFn dl rl tool "respond" s2 = respond_node rl s2 from rfl]
        cases hr : respond_node rl s2 with
        | error e => rfl
        | ok s3 =>
          dsimp only
          rw [show nextNode "respond" s3 = (none : Option String) from rfl]
    · rw [show route_after_decision s1 = "respond" from by
        simp [route_after_decision, hs], if_neg hs]
      dsimp only
      rw [show (3 : Nat) = 2 + 1 from rfl, runFrom_succ]
      rw [show nodeFn dl rl tool "respond" s1 = respond_node rl s1 from rfl]
      cases hr : respond_node rl s1 with
      | error e => rfl
      | ok s2 =>
        dsimp only
        rw [show nextNode "respond" s2 = (none : Option String) from rfl]

/-- The last element of a list with one element appended. -/
theorem getLast?_append_singleton {α : Type} (l : List α) (a : α) :
    (l ++ [a]).getLast? = some a := by
  rw [List.getLast?_concat]

/-- C2: for every conversation state with at least one message, the decision
node sets `needs_search` to the boolean "the lowercased classification
response contains the substring 'yes'" — true iff "yes" occurs,
case-insensitively, anywhere in the response; there is no retry (the adapter
is consulted exactly once, in this single equation), and whenever the
substring is absent the router sends the state straight to `respond`. -/
theorem C2_needs_search_iff_yes (llm : List Message → String) (s : AgentState)
    (m : Message) (h : s.messages.getLast? = some m) :
    should_search_node llm s =
      Except.ok { s with
        needs_search := containsSubstr (lowerStr (llm (decidePromptFor m))) "yes" } ∧
    (containsSubstr (lowerStr (llm (decidePromptFor m))) "yes" = false →
      route_after_decision { s with
        needs_search := containsSubstr (lowerStr (llm (decidePromptFor m))) "yes" } =
        "respond") := by
  constructor
  · unfold should_search_node
    rw [h]
  · intro hno
    simp [route_after_decision, hno]

/-- Witness for C2 at a concrete state and adapter answering "Yes, search.". -/
theorem C2_needs_search_iff_yes_witness :
    should_search_node (fun _ => "Yes, search.")
        (AgentState.mk [Message.mk "user" "news?"] false) =
      Except.ok (AgentState.mk [Message.mk "user" "news?"] true) :=
  (C2_needs_search_iff_yes (fun _ => "Yes, search.")
    (AgentState.mk [Message.mk "user" "news?"] false)
    (Message.mk "user" "news?") rfl).1

/-- C4: for every result list handed back by the search adapter, the search
node appends exactly one assistant message, whose content is the query header
followed by "Result i: content" lines, 1-indexed and newline-joined; at
`["a", "b"]` the formatted block is exactly "Result 1: a\nResult 2: b". -/
theorem C4_search_node_format (tool : String → Except String (List SearchResult))
    (s : AgentState) (m : Message) (results : List SearchResult)
    (h : s.messages.getLast? = some m) (ht : tool m.content = Except.ok results) :
    search_node tool s =
      Except.ok { s with messages := s.messages ++
        [Message.mk "assistant" ("Search results for \x27" ++ m.content ++ "\x27:\n" ++
          String.intercalate "\n"
            (results.enum.map (fun p => "Result " ++ toString (p.1 + 1) ++ ": " ++ p.2.content)))] } ∧
    formatResults [SearchResult.mk "a", SearchResult.mk "b"] = "Result 1: a\nResult 2: b" := by
  constructor
  · unfold search_node
    rw [h]
    dsimp only
    rw [ht]
    rfl
  · rfl

/-- Witness for C4 at query "q" and results ["a", "b"]. -/
theorem C4_search_node_format_witness :
    search_node (fun _ => Except.ok [SearchResult.mk "a", SearchResult.mk "b"])
        (AgentState.mk [Message.mk "user" "q"] false) =
      Except.ok (AgentState.mk
        [Message.mk "user" "q",
         Message.mk "assistant" "Search results for \x27q\x27:\nResult 1: a\nResult 2: b"]
        false) :=
  (C4_search_node_format (fun _ => Except.ok [SearchResult.mk "a", SearchResult.mk "b"])
    (AgentState.mk [Message.mk "user" "q"] false) (Message.mk "user" "q")
    [SearchResult.mk "a", SearchResult.mk "b"] rfl rfl).1

/-- C8: when the search adapter raises, the search node propagates exactly
that exception: the node's result is the adapter's error, so no assistant
message is appended and no recovered state leaves this node. -/
theorem C8_search_error_propagates (tool : String → Except String (List SearchResult))
    (s : AgentState) (m : Message) (e : String)
    (h : s.messages.getLast? = some m) (ht : tool m.content = Except.error e) :
    search_node tool s = Except.error e := by
  unfold search_node
  rw [h]
  dsimp only
  rw [ht]

/-- Witness for C8 with an adapter that always raises. -/
theorem C8_search_error_propagates_witness :
    search_node (fun _ => Except.error "Tavily connection failed")
        (AgentState.mk [Message.mk "user" "news?"] true) =
      Except.error "Tavily connection failed" :=
  C8_search_error_propagates (fun _ => Except.error "Tavily connection failed")
    (AgentState.mk [Message.mk "user" "news?"] true) (Message.mk "user" "news?")
    "Tavily connection failed" rfl rfl

/-- C7: whenever the respond node assembles a prompt, that prompt ends with a
user-role message — the assembly unconditionally appends a `HumanMessage`
last, whatever mixture of user / assistant / search-result messages the
history holds. -/
theorem C7_prompt_ends_with_user (msgs : List Message) (p : List Message)
    (h : respondPrompt msgs = Except.ok p) :
    ∃ c, p.getLast? = some (Message.mk "user" c) := by
  unfold respondPrompt at h
  dsimp only at h
  cases hq : (scanHistory msgs).1 with
  | none =>
    rw [hq] at h
    dsimp only at h
    cases hl : msgs.getLast? with
    | none => rw [hl] at h; simp at h
    | some m =>
      rw [hl] at h
      dsimp only at h
      simp only [Except.ok.injEq] at h
      exact ⟨m.content, by rw [← h, getLast?_append_singleton]⟩
  | some q =>
    rw [hq] at h
    dsimp only at h
    by_cases hq0 : q = ""
    · rw [if_pos hq0] at h
      cases hl : msgs.getLast? with
      | none => rw [hl] at h; simp at h
      | some m =>
        rw [hl] at h
        dsimp only at h
        simp only [Except.ok.injEq] at h
        exact ⟨m.content, by rw [← h, getLast?_append_singleton]⟩
    · rw [if_neg hq0] at h
      simp only [Except.ok.injEq] at h
      exact ⟨q, by rw [← h, getLast?_append_singleton]⟩

/-- Witness for C7 on a history holding the user query and an injected
search-results assistant message. -/
theorem C7_prompt_ends_with_user_witness :
    ∃ c, ([Message.mk "system" respondSystemPrompt,
           Message.mk "assistant" "Search results for \x27hi\x27:\nResult 1: r",
           Message.mk "user" "hi"].getLast? = some (Message.mk "user" c)) :=
  C7_prompt_ends_with_user
    [Message.mk "user" "hi",
     Message.mk "assistant" "Search results for \x27hi\x27:\nResult 1: r"]
    [Message.mk "system" respondSystemPrompt,
     Message.mk "assistant" "Search results for \x27hi\x27:\nResult 1: r",
     Message.mk "user" "hi"] rfl

/-- C1 fails on the code: with history `[user "a", user "b"]` the forward scan
in `respond_node` overwrites `user_query` at every user message, so the
assembled prompt ends with the LAST user message's content "b", while the
first user message (which both the spec and the code's own comment "Extract
the original user query (first message)" designate) has content "a". -/
theorem C1_prompt_uses_last_user_eval :
    respondPrompt [Message.mk "user" "a", Message.mk "user" "b"] =
      Except.ok [Message.mk "system" respondSystemPrompt, Message.mk "user" "b"] ∧
    List.find? (fun m => m.role == "user")
        [Message.mk "user" "a", Message.mk "user" "b"] =
      some (Message.mk "user" "a") :=
  ⟨rfl, rfl⟩

/-- C3: a completed invocation starts at `decide` and follows exactly one of
the two paths — decide, search, respond when `needs_search` came out true,
decide, respond otherwise; `search` appears in the trace iff `needs_search`
is true, `respond` and `decide` each execute exactly once, and the run ends
after `respond` (END). -/
theorem C3_graph_two_paths (dl rl : List Message → String)
    (tool : String → Except String (List SearchResult))
    (s0 : AgentState) (tr : List String) (sf : AgentState)
    (h : runGraph dl rl tool s0 = Except.ok (tr, sf)) :
    ∃ s1, should_search_node dl s0 = Except.ok s1 ∧
      tr = (if s1.needs_search then ["decide", "search", "respond"]
            else ["decide", "respond"]) ∧
      (("search" ∈ tr) ↔ s1.needs_search = true) ∧
      tr.count "respond" = 1 ∧ tr.count "decide" = 1 ∧ tr.head? = some "decide" := by
  rw [runGraph_cases] at h
  cases hd : should_search_node dl s0 with
  | error e => rw [hd] at h; exact absurd h (by simp)
  | ok s1 =>
    rw [hd] at h
    dsimp only at h
    refine ⟨s1, rfl, ?_⟩
    by_cases hs : s1.needs_search = true
    · rw [if_pos hs] at h
      cases he : search_node tool s1 with
      | error e => rw [he] at h; exact absurd h (by simp)
      | ok s2 =>
        rw [he] at h
        dsimp only at h
        cases hr : respond_node rl s2 with
        | error e => rw [hr] at h; exact absurd h (by simp)
        | ok s3 =>
          rw [hr] at h
          simp only [Except.ok.injEq, Prod.mk.injEq] at h
          rw [if_pos hs, ← h.1]
          refine ⟨rfl, ?_, ?_, ?_, ?_⟩ <;> simp [hs]
    · rw [if_neg hs] at h
      cases hr : respond_node rl s1 with
      | error e => rw [hr] at h; exact absurd h (by simp)
      | ok s2 =>
        rw [hr] at h
        simp only [Except.ok.injEq, Prod.mk.injEq] at h
        rw [if_neg hs, ← h.1]
        refine ⟨rfl, ?_, ?_, ?_, ?_⟩ <;> simp [hs]

/-- Witness for C3 on a run whose classifier answers "no". -/
theorem C3_graph_two_paths_witness :
    ∃ s1, should_search_node (fun _ => "no")
        (AgentState.mk [Message.mk "user" "hi"] false) = Except.ok s1 ∧
      ["decide", "respond"] =
        (if s1.needs_search then ["decide", "search", "respond"]
         else ["decide", "respond"]) ∧
      (("search" ∈ (["decide", "respond"] : List String)) ↔ s1.needs_search = true) ∧
      (["decide", "respond"] : List String).count "respond" = 1 ∧
      (["decide", "respond"] : List String).count "decide" = 1 ∧
      (["decide", "respond"] : List String).head? = some "decide" :=
  C3_graph_two_paths (fun _ => "no") (fun _ => "fine") (fun _ => Except.ok [])
    (AgentState.mk [Message.mk "user" "hi"] false) ["decide", "respond"]
    (AgentState.mk [Message.mk "user" "hi", Message.mk "assistant" "fine"] false) rfl

end LangGraphAgent

namespace MemoryAgent

/-- A LangChain message object as used in `lanchain_agent_aws_memory.py`:
`kind` is "human" for `HumanMessage`, "ai" for `AIMessage`, "tool" for
`ToolMessage`; `tool_calls` holds the names of requested tool calls (`[]`
when absent, i.e. falsy). -/
structure LCMsg where
  kind : String
  content : String
  tool_calls : List String
deriving DecidableEq, Repr

/-- The payload dict `{"message": msg}` written by `store.put`. -/
structure MemPayload where
  message : LCMsg
deriving DecidableEq, Repr

/-- One `store.put(namespace, id, payload)` call performed by a hook. -/
structure StorePut where
  ns : String × String
  id : String
  payload : MemPayload
deriving DecidableEq, Repr

/-- One `store.search(namespace, query, limit)` call attempted by a hook. -/
structure StoreSearch where
  ns : String × String
  query : String
  limit : Nat
deriving DecidableEq, Repr

/-- Observable outcome of `pre_model_hook`: the store writes it performed, the
lookups it attempted, the error line it printed when the lookup raised, and
the `messages` value of the returned state update. The hook itself returning
(rather than raising) is the totality of this function in the adapter
argument. -/
structure PreHookResult where
  puts : List StorePut
  searches : List StoreSearch
  logged : Option String
  messages : List LCMsg
deriving DecidableEq, Repr

/-- `MemoryMiddleware.pre_model_hook`: scans `messages` in reverse for the
most recent `HumanMessage`; on finding one, writes it under the
`(actor_id, thread_id)` namespace with the freshly generated id `newId`, then
attempts `store.search(("preferences", actor_id), query=msg.content, limit=5)`
inside a `try` whose `except` only prints — an adapter exception
(`Except.error`) is swallowed into the `logged` field. Finally returns
`{"messages": messages}` unchanged. -/
def pre_model_hook
    (searchFn : String × String → String → Nat → Except String (List MemPayload))
    (newId : String) (actor_id thread_id : String) (messages : List LCMsg) :
    PreHookResult :=
  match messages.reverse.find? (fun m => m.kind == "human") with
  | none => PreHookResult.mk [] [] none messages
  | some msg =>
    let sessionNs : String × String := (actor_id, thread_id)
    let prefNs : String × String := ("preferences", actor_id)
    let logged : Option String :=
      match searchFn prefNs msg.content 5 with
      | Except.error e => some ("Memory retrieval error: " ++ e)
      | Except.ok _ => none
    PreHookResult.mk [StorePut.mk sessionNs newId (MemPayload.mk msg)]
      [StoreSearch.mk prefNs msg.content 5] logged messages

/-- One streamed chunk as consumed by `agent_invocation`: `none` when the
chunk has no "messages" key. -/
structure Chunk where
  messages : Option (List LCMsg)
deriving DecidableEq, Repr

/-- The invocation payload: `nonObject` is `None` or a non-dict, `emptyObj`
is `\x7b\x7d` (falsy, so it fails the same `not payload` check), `obj` is a
non-empty dict with the optional string fields the code reads. -/
inductive Payload where
  | nonObject : Payload
  | emptyObj : Payload
  | obj (prompt actor_id thread_id session_id : Option String) : Payload
deriving DecidableEq, Repr

/-- The record `agent_invocation` returns; a field is `none` when the Python
dict omits the corresponding key. -/
structure InvResult where
  result : Option String
  error : Option String
  steps : Option Nat
  success : Option Bool
deriving DecidableEq, Repr

/-- The `for chunk in agent_executor.stream(...)` body: counts chunks into
`step` and keeps the content of the last streamed `AIMessage` with non-empty
content and no tool calls. A chunk carrying an empty "messages" list makes
`chunk["messages"][-1]` raise `IndexError`, caught by the enclosing
`except` and formatted into the error text. -/
def streamLoop : List Chunk → Nat → Option String → Except String (Nat × Option String)
  | [], step, fa => Except.ok (step, fa)
  | c :: rest, step, fa =>
    match c.messages with
    | none => streamLoop rest (step + 1) fa
    | some [] => Except.error "Error during agent execution: list index out of range"
    | some (m :: ms) =>
      let last := (m :: ms).getLast (List.cons_ne_nil m ms)
      let fa2 :=
        if last.kind = "ai" ∧ last.content ≠ "" ∧ last.tool_calls = [] then
          some last.content
        else fa
      streamLoop rest (step + 1) fa2

/-- Python `s.strip()`: drop leading and trailing whitespace. -/
def pyStrip (s : String) : String :=
  String.mk (((s.toList.dropWhile Char.isWhitespace).reverse.dropWhile
    Char.isWhitespace).reverse)

/-- Error text for a missing / non-dict / empty payload. -/
def errorPayloadMsg : String :=
  "Invalid payload format. Expected JSON dict with \x27prompt\x27 key"

/-- Error text for an empty or missing prompt. -/
def errorNoPrompt : String :=
  "No prompt found in input. Please provide a \x27prompt\x27 key with your question."

/-- Error text when a full run produced no non-empty final answer. -/
def errorNoAnswer : String := "Agent failed to generate a response"

/-- `agent_invocation`: validates the payload, streams the agent run (the
adapter `streamFn` receives the trimmed prompt and the resolved actor/thread
ids; its exception, like one raised inside the loop body, is caught by the
inner `except` and returned as an error record), then validates the final
answer. Every path returns a record. -/
def agent_invocation
    (streamFn : String → String → String → Except String (List Chunk))
    (payload : Payload) : InvResult :=
  match payload with
  | Payload.nonObject => InvResult.mk none (some errorPayloadMsg) none none
  | Payload.emptyObj => InvResult.mk none (some errorPayloadMsg) none none
  | Payload.obj prompt actor thread session =>
    let user_message := pyStrip (prompt.getD "")
    let actor_id := actor.getD "default-user"
    let thread_id := thread.getD (session.getD "default-session")
    if user_message = "" then InvResult.mk none (some errorNoPrompt) none none
    else
      match streamFn user_message actor_id thread_id with
      | Except.error e =>
        InvResult.mk none (some ("Error during agent execution: " ++ e)) none none
      | Except.ok chunks =>
        match streamLoop chunks 0 none with
        | Except.error e => InvResult.mk none (some e) none none
        | Except.ok (_, none) => InvResult.mk none (some errorNoAnswer) none none
        | Except.ok (step, some ans) =>
          if ans = "" then InvResult.mk none (some errorNoAnswer) none none
          else InvResult.mk (some ans) none (some step) (some true)

/-- Each streamed chunk increments `step` by one: the final count is the
start value plus the number of chunks. -/
theorem streamLoop_count (chunks : List Chunk) (s : Nat) (fa : Option String)
    (n : Nat) (fa2 : Option String)
    (h : streamLoop chunks s fa = Except.ok (n, fa2)) : n = s + chunks.length := by
  induction chunks generalizing s fa with
  | nil =>
    unfold streamLoop at h
    simp only [Except.ok.injEq, Prod.mk.injEq] at h
    simp [← h.1]
  | cons c rest ih =>
    unfold streamLoop at h
    cases hc : c.messages with
    | none =>
      rw [hc] at h
      have := ih (s + 1) fa h
      simp [this, Nat.add_comm, Nat.add_assoc, Nat.add_left_comm]
    | some ms =>
      cases ms with
      | nil => rw [hc] at h; simp at h
      | cons m ms2 =>
        rw [hc] at h
        dsimp only at h
        have := ih (s + 1) _ h
        simp [this, Nat.add_comm, Nat.add_assoc, Nat.add_left_comm]

/-- A final answer can only come from some chunk: if the loop starts with no
answer and ends with one, the chunk list was non-empty. -/
theorem streamLoop_answer_nonempty (chunks : List Chunk) (s n : Nat) (a : String)
    (h : streamLoop chunks s none = Except.ok (n, some a)) : chunks ≠ [] := by
  intro hc
  subst hc
  unfold streamLoop at h
  simp at h

/-- C5: whenever the history contains a user message, the pre-hook writes
exactly one record — the most recent user message, under the freshly
generated id — to the `(actor_id, thread_id)` namespace, attempts exactly one
lookup on `("preferences", actor_id)` with that message's content as query
and limit 5, and returns normally for every lookup adapter, an erroring one
included: the exception is only turned into a printed line. -/
theorem C5_prehook_write_and_lookup
    (searchFn : String × String → String → Nat → Except String (List MemPayload))
    (newId actor thread : String) (msgs : List LCMsg) (m : LCMsg)
    (h : msgs.reverse.find? (fun x => x.kind == "human") = some m) :
    pre_model_hook searchFn newId actor thread msgs =
      PreHookResult.mk [StorePut.mk (actor, thread) newId (MemPayload.mk m)]
        [StoreSearch.mk ("preferences", actor) m.content 5]
        (match searchFn ("preferences", actor) m.content 5 with
         | Except.error e => some ("Memory retrieval error: " ++ e)
         | Except.ok _ => none)
        msgs := by
  unfold pre_model_hook
  rw [h]

/-- Witness for C5: one user message "hi", a lookup adapter that raises. -/
theorem C5_prehook_write_and_lookup_witness :
    pre_model_hook (fun _ _ _ => Except.error "boom") "id-1" "u1" "t1"
        [LCMsg.mk "human" "hi" []] =
      PreHookResult.mk
        [StorePut.mk ("u1", "t1") "id-1" (MemPayload.mk (LCMsg.mk "human" "hi" []))]
        [StoreSearch.mk ("preferences", "u1") "hi" 5]
        (some ("Memory retrieval error: " ++ "boom"))
        [LCMsg.mk "human" "hi" []] :=
  C5_prehook_write_and_lookup (fun _ _ _ => Except.error "boom") "id-1" "u1" "t1"
    [LCMsg.mk "human" "hi" []] (LCMsg.mk "human" "hi" []) rfl

/-- C10: the pre-hook returns the messages list unchanged for every input
(retrieved records are only printed, never appended), and when the history
holds no user message at all it performs no store write and no preference
lookup. -/
theorem C10_prehook_frame
    (searchFn : String × String → String → Nat → Except String (List MemPayload))
    (newId actor thread : String) (msgs : List LCMsg) :
    (pre_model_hook searchFn newId actor thread msgs).messages = msgs ∧
    ((∀ m ∈ msgs, ¬ m.kind = "human") →
      (pre_model_hook searchFn newId actor thread msgs).puts = [] ∧
      (pre_model_hook searchFn newId actor thread msgs).searches = []) := by
  constructor
  · unfold pre_model_hook
    cases hf : msgs.reverse.find? (fun x => x.kind == "human") <;> rfl
  · intro hall
    have hf : msgs.reverse.find? (fun x => x.kind == "human") = none := by
      rw [List.find?_eq_none]
      intro x hx
      simp only [beq_iff_eq]
      exact hall x (List.mem_reverse.mp hx)
    unfold pre_model_hook
    rw [hf]
    exact ⟨rfl, rfl⟩

/-- Witness for C10: a history with only an assistant message. -/
theorem C10_prehook_frame_witness :
    (pre_model_hook (fun _ _ _ => Except.error "down") "id-2" "u1" "t1"
        [LCMsg.mk "ai" "yo" []]).messages = [LCMsg.mk "ai" "yo" []] ∧
    (pre_model_hook (fun _ _ _ => Except.error "down") "id-2" "u1" "t1"
        [LCMsg.mk "ai" "yo" []]).puts = [] ∧
    (pre_model_hook (fun _ _ _ => Except.error "down") "id-2" "u1" "t1"
        [LCMsg.mk "ai" "yo" []]).searches = [] := by
  have h := C10_prehook_frame (fun _ _ _ => Except.error "down") "id-2" "u1" "t1"
    [LCMsg.mk "ai" "yo" []]
  exact ⟨h.1, h.2 (by decide)⟩

/-- C9: `agent_invocation` always returns a record: on every path it either
carries a non-null error with a null result, or a non-null result with steps
and `success = true`; adapter exceptions and in-loop exceptions land in the
first disjunct. -/
theorem C9_invocation_always_returns
    (streamFn : String → String → String → Except String (List Chunk))
    (payload : Payload) :
    (∃ e, (agent_invocation streamFn payload).error = some e ∧
          (agent_invocation streamFn payload).result = none) ∨
    (∃ a n, (agent_invocation streamFn payload).result = some a ∧
            (agent_invocation streamFn payload).error = none ∧
            (agent_invocation streamFn payload).steps = some n ∧
            (agent_invocation streamFn payload).success = some true) := by
  cases payload with
  | nonObject => exact Or.inl ⟨errorPayloadMsg, rfl, rfl⟩
  | emptyObj => exact Or.inl ⟨errorPayloadMsg, rfl, rfl⟩
  | obj prompt actor thread session =>
    by_cases hp : pyStrip (prompt.getD "") = ""
    · refine Or.inl ⟨errorNoPrompt, ?_, ?_⟩ <;> simp [agent_invocation, hp]
    · cases hstream : streamFn (pyStrip (prompt.getD "")) (actor.getD "default-user")
          (thread.getD (session.getD "default-session")) with
      | error e =>
        refine Or.inl ⟨"Error during agent execution: " ++ e, ?_, ?_⟩ <;>
          simp [agent_invocation, hp, hstream]
      | ok chunks =>
        cases hloop : streamLoop chunks 0 none with
        | error e =>
          refine Or.inl ⟨e, ?_, ?_⟩ <;> simp [agent_invocation, hp, hstream, hloop]
        | ok pair =>
          obtain ⟨step, fa⟩ := pair
          cases fa with
          | none =>
            refine Or.inl ⟨errorNoAnswer, ?_, ?_⟩ <;>
              simp [agent_invocation, hp, hstream, hloop]
          | some ans =>
            by_cases ha : ans = ""
            · refine Or.inl ⟨errorNoAnswer, ?_, ?_⟩ <;>
                simp [agent_invocation, hp, hstream, hloop, ha]
            · refine Or.inr ⟨ans, step, ?_, ?_, ?_, ?_⟩ <;>
                simp [agent_invocation, hp, hstream, hloop, ha]

/-- C6: the invocation entrypoint returns an error record with null result
for a missing/non-object payload, for the empty dict, and for an empty or
missing prompt; a full run yielding no non-empty final answer returns the
error "Agent failed to generate a response"; a run yielding a non-empty final
answer `ans` returns result `ans`, a positive step count and
`success = true`. -/
theorem C6_invocation_contract
    (streamFn : String → String → String → Except String (List Chunk))
    (prompt actor thread session : Option String)
    (chunks : List Chunk) (n : Nat) (ans : String) :
    (agent_invocation streamFn Payload.nonObject =
      InvResult.mk none (some errorPayloadMsg) none none) ∧
    (agent_invocation streamFn Payload.emptyObj =
      InvResult.mk none (some errorPayloadMsg) none none) ∧
    (pyStrip (prompt.getD "") = "" →
      agent_invocation streamFn (Payload.obj prompt actor thread session) =
        InvResult.mk none (some errorNoPrompt) none none) ∧
    (pyStrip (prompt.getD "") ≠ "" →
      streamFn (pyStrip (prompt.getD "")) (actor.getD "default-user")
        (thread.getD (session.getD "default-session")) = Except.ok chunks →
      streamLoop chunks 0 none = Except.ok (n, none) →
      agent_invocation streamFn (Payload.obj prompt actor thread session) =
        InvResult.mk none (some errorNoAnswer) none none) ∧
    (pyStrip (prompt.getD "") ≠ "" →
      streamFn (pyStrip (prompt.getD "")) (actor.getD "default-user")
        (thread.getD (session.getD "default-session")) = Except.ok chunks →
      streamLoop chunks 0 none = Except.ok (n, some ans) →
      ans ≠ "" →
      agent_invocation streamFn (Payload.obj prompt actor thread session) =
        InvResult.mk (some ans) none (some n) (some true) ∧ 0 < n) := by
  refine ⟨rfl, rfl, ?_, ?_, ?_⟩
  · intro hp
    simp [agent_invocation, hp]
  · intro hp hs hl
    simp [agent_invocation, hp, hs, hl]
  · intro hp hs hl ha
    constructor
    · simp [agent_invocation, hp, hs, hl, ha]
    · have h1 := streamLoop_count chunks 0 none n (some ans) hl
      have h2 := streamLoop_answer_nonempty chunks 0 n ans hl
      have h3 : 0 < chunks.length := List.length_pos.mpr h2
      omega

/-- Witness for C6: a stubbed adapter that streams one chunk whose final
AI message is "4" with no tool calls, on payload prompt "2+2?". -/
theorem C6_invocation_contract_witness :
    agent_invocation (fun _ _ _ => Except.ok [Chunk.mk (some [LCMsg.mk "ai" "4" []])])
        (Payload.obj (some "2+2?") none none none) =
      InvResult.mk (some "4") none (some 1) (some true) ∧ 0 < 1 := by
  have h := C6_invocation_contract
    (fun _ _ _ => Except.ok [Chunk.mk (some [LCMsg.mk "ai" "4" []])])
    (some "2+2?") none none none [Chunk.mk (some [LCMsg.mk "ai" "4" []])] 1 "4"
  exact h.2.2.2.2 (by decide) rfl rfl (by decide)

end MemoryAgent
